import Mathlib

/-!
Verification development for the terminal session multiplexer of the
term-ai-nal repository.  The definitions below are shallow embeddings of
the TypeScript source: the renderer layout tree and its operations
(src/renderer/App.tsx), the terminal pane resize coordination
(src/renderer/TerminalPane.tsx: the ResizeObserver debounce and the
attemptResize retry loop) and the main-process session registry (the
Electron main file: the ptyProcesses map, the closingTerminals set and
the IPC handlers terminal-create / terminal-input / terminal-resize /
terminal-close / terminal-get-cwd, plus the pty onExit callback and the
window closed handler).
-/

namespace TermAInal

/-- Split direction of a layout group (App.tsx: direction field). -/
inductive Dir where
  | horizontal
  | vertical
deriving DecidableEq, Repr

/-- Insert position for splitPane (App.tsx: position parameter). -/
inductive Pos where
  | before
  | after
deriving DecidableEq, Repr

/-- LayoutNode (App.tsx): tagged union of a pane leaf and a group node.
The TypeScript type is a single record with a type discriminant and
optional fields; panes carry paneId, cwd and paneNumber, groups carry a
direction and an ordered children list. -/
inductive LayoutNode where
  | pane (id : String) (paneId : String) (cwd : Option String) (paneNumber : Option Nat)
  | group (id : String) (direction : Dir) (children : List LayoutNode)

mutual

/-- Number of pane leaves in a layout tree. -/
def paneCount : LayoutNode → Nat
  | .pane _ _ _ _ => 1
  | .group _ _ children => paneCountList children

/-- Number of pane leaves across a list of layout trees. -/
def paneCountList : List LayoutNode → Nat
  | [] => 0
  | c :: cs => paneCount c + paneCountList cs

end

mutual

/-- The pane ids (terminal ids) occurring in a layout tree, depth-first. -/
def paneIds : LayoutNode → List String
  | .pane _ p _ _ => [p]
  | .group _ _ children => paneIdsList children

/-- The pane ids occurring across a list of layout trees, depth-first. -/
def paneIdsList : List LayoutNode → List String
  | [] => []
  | c :: cs => paneIds c ++ paneIdsList cs

end

mutual

/-- removeByPaneId (App.tsx: the recursive helper defined identically
inside closePane and inside the onTerminalExit handler): removes the
pane leaf whose paneId matches the target, drops any group left with
zero children, and hoists a group left with exactly one child up to its
own position unless that group has the id of the root node. -/
def removeByPaneId (target : String) : LayoutNode → Option LayoutNode
  | .pane i p c n =>
      if p = target then none else some (.pane i p c n)
  | .group i d children =>
      match removeChildren target children with
      | [] => none
      | [c] => if i ≠ "root" then some c else some (.group i d [c])
      | c :: cs => some (.group i d (c :: cs))

/-- Children after removal: map removeByPaneId over the list and filter
out the nulls (App.tsx: newChildren = children.map(removeByPaneId)
.filter(n != null)). -/
def removeChildren (target : String) : List LayoutNode → List LayoutNode
  | [] => []
  | c :: cs =>
      match removeByPaneId target c with
      | none => removeChildren target cs
      | some c2 => c2 :: removeChildren target cs

end

mutual

/-- splitLayout: the layout-tree part of splitPane (App.tsx).  A
depth-first search locates the first pane whose paneId is the target
together with its parent group; if the direction of the parent group equals
the requested direction the new pane is spliced in as a sibling at
index (position = before) or index + 1 (position = after), otherwise
the target pane is replaced in its parent by a new group of the
requested direction containing target and new pane in position order.
If the target pane is not found, or the root itself is the target pane
(so there is no parent group), the tree is returned unchanged. -/
def splitLayout (target : String) (direction : Dir) (position : Pos)
    (newPane : LayoutNode) (newGroupId : String) : LayoutNode → LayoutNode
  | .pane i p c n => .pane i p c n
  | .group i d children =>
      match splitChildren target direction position newPane newGroupId d children with
      | none => .group i d children
      | some newChildren => .group i d newChildren

/-- splitChildren: scan the children of a parent group (whose direction is
parentDir) left to right for the target pane; on the first hit perform
the splice or wrap described in splitLayout and report the rewritten
children list, otherwise recurse into group children.  Returns none if
the target pane occurs nowhere below. -/
def splitChildren (target : String) (direction : Dir) (position : Pos)
    (newPane : LayoutNode) (newGroupId : String) (parentDir : Dir) :
    List LayoutNode → Option (List LayoutNode)
  | [] => none
  | c :: cs =>
      match c with
      | .pane i p cw n =>
          if p = target then
            if parentDir = direction then
              match position with
              | .after => some (.pane i p cw n :: newPane :: cs)
              | .before => some (newPane :: .pane i p cw n :: cs)
            else
              match position with
              | .after => some (.group newGroupId direction [.pane i p cw n, newPane] :: cs)
              | .before => some (.group newGroupId direction [newPane, .pane i p cw n] :: cs)
          else
            match splitChildren target direction position newPane newGroupId parentDir cs with
            | none => none
            | some cs2 => some (.pane i p cw n :: cs2)
      | .group gi gd gchildren =>
          match splitChildren target direction position newPane newGroupId gd gchildren with
          | some g2 => some (.group gi gd g2 :: cs)
          | none =>
              match splitChildren target direction position newPane newGroupId parentDir cs with
              | none => none
              | some cs2 => some (.group gi gd gchildren :: cs2)

end

/-- Renderer events a layout action can emit: an IPC closeTerminal call
to the session registry, or dispatching the terminal-layout-change
event that drives the resize coordination. -/
inductive REvent where
  | closeTerminalCall (id : String)
  | layoutChange
deriving DecidableEq, Repr

/-- Renderer application state (App.tsx useState hooks): the layout
tree, the active pane id, the list of live terminal ids, and the
counter for the next pane display number. -/
structure AppState where
  layout : LayoutNode
  activePaneId : String
  terminals : List String
  nextPaneNumber : Nat

/-- closePane (App.tsx): returns unchanged (guarding the last pane) if
the terminals list has at most one entry; otherwise removes the pane
from the layout tree falling back to the previous layout when removal
would empty it, filters the pane id out of the terminals list,
reassigns the active pane to the first remaining terminal when the
closed pane was active, and dispatches terminal-layout-change.  The
body issues no closeTerminal IPC call. -/
def closePane (s : AppState) (targetPaneId : String) : AppState × List REvent :=
  if s.terminals.length ≤ 1 then (s, [])
  else
    let newLayout := (removeByPaneId targetPaneId s.layout).getD s.layout
    let remaining := s.terminals.filter (fun t => t ≠ targetPaneId)
    let newActive :=
      if s.activePaneId = targetPaneId then
        match remaining with
        | [] => s.activePaneId
        | r :: _ => r
      else s.activePaneId
    ({ s with layout := newLayout, terminals := remaining, activePaneId := newActive },
     [.layoutChange])

/-- The unsolicited-exit removal path (App.tsx onTerminalExit handler,
confirm accepted): remove the pane from the layout tree falling back to
the previous layout when removal would empty it, and filter the id out
of the terminals list.  The active pane id is not touched on this
path. -/
def onTerminalExitRemove (s : AppState) (id : String) : AppState :=
  { s with
    layout := (removeByPaneId id s.layout).getD s.layout,
    terminals := s.terminals.filter (fun t => t ≠ id) }

/-- splitPane (App.tsx): unconditionally appends the new terminal id,
makes it active and bumps the pane-number counter, then applies
splitLayout targeting the currently active pane (a no-op on the tree if
that pane is not found).  cwd is the result of the best-effort
getTerminalCwd probe (none when the probe rejected); newPaneId,
newNodeId and newGroupId are the freshly generated ids.  Afterwards
terminal-layout-change is dispatched. -/
def splitPane (s : AppState) (direction : Dir) (position : Pos)
    (newPaneId newNodeId newGroupId : String) (cwd : Option String) :
    AppState × List REvent :=
  let newPaneNode : LayoutNode := .pane newNodeId newPaneId cwd (some s.nextPaneNumber)
  ({ layout := splitLayout s.activePaneId direction position newPaneNode newGroupId s.layout,
     activePaneId := newPaneId,
     terminals := s.terminals ++ [newPaneId],
     nextPaneNumber := s.nextPaneNumber + 1 },
   [.layoutChange])

/-! ## Session Registry (Electron main process) -/

/-- One spawned pty process (node-pty IPty as used by the main file):
its OS pid, current geometry and the working directory it was spawned
with.  pty.spawn uses cols 80, rows 30 and cwd falling back to the HOME
environment variable. -/
structure Pty where
  pid : Nat
  cols : Nat
  rows : Nat
  cwd : String
deriving DecidableEq, Repr

/-- Observable effects of the main-process handlers: spawning a pty,
webContents.send of terminal-data or terminal-exit, writing to a pty,
an OS-level pty resize attempt, the console.error in the resize catch
block, and killing a pty. -/
inductive MEvent where
  | spawnProcess (id : String) (pid : Nat)
  | sendData (id : String) (data : String)
  | sendExit (id : String)
  | writeData (pid : Nat) (data : String)
  | osResize (pid : Nat) (cols rows : Int)
  | logResizeError (id : String)
  | kill (pid : Nat)
deriving DecidableEq, Repr

/-- The module-level mutable state of the Electron main file: the
ptyProcesses map (modelled as an association list with unique keys: the
handlers only ever insert an id that is absent), the closingTerminals
set of ids whose termination was user initiated, whether mainWindow is
still non-null, and a counter supplying fresh OS pids for spawns. -/
structure Registry where
  ptys : List (String × Pty)
  closing : List String
  winAlive : Bool
  nextPid : Nat
deriving DecidableEq, Repr

/-- ptyProcesses.get(id) (Map lookup). -/
def Registry.lookup (reg : Registry) (id : String) : Option Pty :=
  (reg.ptys.find? (fun e => e.1 = id)).map (fun e => e.2)

/-- ptyProcesses.delete(id) (Map delete: the key is removed). -/
def Registry.eraseId (reg : Registry) (id : String) : List (String × Pty) :=
  reg.ptys.filter (fun e => e.1 ≠ id)

/-- closingTerminals.add(id) (Set add: no duplicates). -/
def addClosing (l : List String) (id : String) : List String :=
  if id ∈ l then l else l ++ [id]

/-- closingTerminals.delete(id) (Set delete: the element is removed). -/
def delClosing (l : List String) (id : String) : List String :=
  l.filter (fun c => c ≠ id)

/-- createPty (main file): if a pty already exists for the id it is
returned and nothing is spawned; otherwise an interactive login shell
is spawned with cols 80, rows 30 and the given working directory
falling back to HOME, registered in the table under the id.  The onData
and onExit subscriptions installed here are modelled by onPtyData and
onPtyExit below. -/
def createPty (reg : Registry) (id : String) (cwd : Option String) (home : String) :
    Registry × Pty × List MEvent :=
  match reg.lookup id with
  | some p => (reg, p, [])
  | none =>
      let p : Pty := { pid := reg.nextPid, cols := 80, rows := 30, cwd := cwd.getD home }
      ({ reg with ptys := reg.ptys ++ [(id, p)], nextPid := reg.nextPid + 1 },
       p, [.spawnProcess id reg.nextPid])

/-- The onData callback registered by createPty: forwards pty output to
the renderer keyed by id, if the window is still open. -/
def onPtyData (reg : Registry) (id : String) (data : String) : List MEvent :=
  if reg.winAlive then [.sendData id data] else []

/-- The onExit callback registered by createPty: sends the
terminal-exit notification only when the id is not marked in
closingTerminals (and the window is still open), then deletes the id
from the ptyProcesses table and from the closingTerminals set. -/
def onPtyExit (reg : Registry) (id : String) : Registry × List MEvent :=
  let evs :=
    if id ∈ reg.closing then []
    else if reg.winAlive then [MEvent.sendExit id] else []
  ({ reg with ptys := reg.eraseId id, closing := delClosing reg.closing id }, evs)

/-- The terminal-input IPC handler: writes the data to the pty when the
id is live, silent no-op otherwise. -/
def inputHandler (reg : Registry) (id : String) (data : String) : Registry × List MEvent :=
  match reg.lookup id with
  | some p => (reg, [.writeData p.pid data])
  | none => (reg, [])

/-- ptyProcess.resize(cols, rows): the OS-level resize, which can fail
(for example when the process has already exited); osOk says whether
the OS call succeeds on this occasion. -/
def ptyResize (osOk : Bool) (p : Pty) (cols rows : Int) : Except String Pty :=
  if osOk then Except.ok { p with cols := cols.toNat, rows := rows.toNat }
  else Except.error "resize failed"

/-- The terminal-resize IPC handler: only when the id is live and both
dimensions are positive is the OS-level resize attempted, inside a
try/catch whose catch branch logs the error with console.error; an
OS-level failure is therefore logged and otherwise ignored, and never
propagates out of the handler. -/
def resizeHandler (osOk : Bool) (reg : Registry) (id : String) (cols rows : Int) :
    Registry × List MEvent :=
  match reg.lookup id with
  | some p =>
      if 0 < cols ∧ 0 < rows then
        match ptyResize osOk p cols rows with
        | .ok p2 =>
            ({ reg with ptys := reg.ptys.map (fun e => if e.1 = id then (e.1, p2) else e) },
             [.osResize p.pid cols rows])
        | .error _ => (reg, [.osResize p.pid cols rows, .logResizeError id])
      else (reg, [])
  | none => (reg, [])

/-- The terminal-close IPC handler: when the id is live, marks it in
closingTerminals (intentional close), kills the pty and synchronously
deletes the id from the ptyProcesses table; no-op otherwise. -/
def closeHandler (reg : Registry) (id : String) : Registry × List MEvent :=
  match reg.lookup id with
  | some p =>
      ({ reg with closing := addClosing reg.closing id, ptys := reg.eraseId id },
       [.kill p.pid])
  | none => (reg, [])

/-- The closed handler of the main window: mainWindow is set to null,
every pty in the table is killed, and the table is cleared. -/
def onWindowClosed (reg : Registry) : Registry × List MEvent :=
  ({ reg with winAlive := false, ptys := [] },
   reg.ptys.map (fun e => MEvent.kill e.2.pid))

/-! ## Working directory probe (getCwd and the terminal-get-cwd handler) -/

/-- The platform as reported by os.platform(). -/
inductive Platform where
  | darwin
  | linux
  | win32
  | other
deriving DecidableEq, Repr

/-- The expression process.env.HOME or-else the root path, with the
JavaScript truthiness rule: an unset or empty HOME yields the root
path. -/
def homeOr (envHome : Option String) : String :=
  match envHome with
  | some h => if h.isEmpty then "/" else h
  | none => "/"

/-- getCwd (main file): on darwin, runs lsof (probe) and extracts the
path with the regular expression capture (regexCapture models the match
against n followed by the captured remainder); on linux, reads the proc
cwd symlink (probe).  Any thrown probe error is caught and falls back
to HOME, a missing regex match falls back to HOME, and any other
platform falls through to HOME. -/
def getCwd (platform : Platform) (probe : Except Unit String)
    (regexCapture : String → Option String) (envHome : Option String) : String :=
  match platform with
  | .darwin =>
      match probe with
      | .ok out =>
          match regexCapture out with
          | some m => m
          | none => homeOr envHome
      | .error _ => homeOr envHome
  | .linux =>
      match probe with
      | .ok p => p
      | .error _ => homeOr envHome
  | .win32 => homeOr envHome
  | .other => homeOr envHome

/-- The terminal-get-cwd IPC handler: probes the live pty via getCwd,
and returns HOME directly when the id has no live session. -/
def getCwdHandler (reg : Registry) (id : String) (platform : Platform)
    (probe : Except Unit String) (regexCapture : String → Option String)
    (envHome : Option String) : String :=
  match reg.lookup id with
  | some _ => getCwd platform probe regexCapture envHome
  | none => homeOr envHome

/-! ## Resize coordination (TerminalPane.tsx) -/

/-- Events seen by the ResizeObserver debounce of one pane: a geometry
change trigger (the observer callback runs clearTimeout then
setTimeout, so a fresh timer replaces any pending one), and the firing
of the timer with a given identity (a cleared timer never fires; firing
a stale identity is a no-op). -/
inductive DEvent where
  | trigger
  | timerFire (k : Nat)
deriving DecidableEq, Repr

/-- Debounce state of one pane: the identity of the pending timer if
any, a supply of fresh timer identities, and the resize calls issued to
the session registry so far. -/
structure DebounceState where
  pendingTimer : Option Nat
  nextTimerId : Nat
  calls : List (Nat × Nat)
deriving DecidableEq, Repr

/-- Initial debounce state: no timer pending, no calls issued. -/
def dInit : DebounceState :=
  { pendingTimer := none, nextTimerId := 0, calls := [] }

/-- One step of the debounced ResizeObserver callback.  On a trigger,
clearTimeout cancels whatever timer was pending and setTimeout installs
a fresh one.  When the pending timer fires, the callback waits two
requestAnimationFrame boundaries, runs fitAddon.fit() obtaining the
measured grid, and calls resizeTerminal only when both dimensions are
positive (a zero measurement is dropped silently). -/
def dStep (measured : Nat × Nat) (s : DebounceState) : DEvent → DebounceState
  | .trigger =>
      { s with pendingTimer := some s.nextTimerId, nextTimerId := s.nextTimerId + 1 }
  | .timerFire k =>
      if s.pendingTimer = some k then
        { s with pendingTimer := none,
                 calls := s.calls ++
                   (if 0 < measured.1 ∧ 0 < measured.2 then [measured] else []) }
      else s

/-- Run the debounce machine from the initial state over a list of
events, with measured the grid that fitAddon.fit() reports when the
timer fires. -/
def dRun (measured : Nat × Nat) (events : List DEvent) : DebounceState :=
  events.foldl (dStep measured) dInit

/-- attemptResize (TerminalPane.tsx): after the double
requestAnimationFrame and fitAddon.fit(), issue the resize call when
the measured grid (a function of the attempt number) is positive in
both dimensions; otherwise retry after a short backoff while attempt is
below 5, and give up silently once attempts are exhausted.  Returns the
list of resize calls issued. -/
def attemptResize (measure : Nat → Nat × Nat) (attempt : Nat) : List (Nat × Nat) :=
  let m := measure attempt
  if 0 < m.1 ∧ 0 < m.2 then [m]
  else if attempt < 5 then attemptResize measure (attempt + 1)
  else []
termination_by 6 - attempt
decreasing_by omega

/-! ## Concrete states used by witnesses -/

/-- The initial single-pane renderer state of App.tsx. -/
def singlePaneState : AppState :=
  { layout := .group "root" .horizontal [.pane "node-1" "term-1" none (some 1)],
    activePaneId := "term-1", terminals := ["term-1"], nextPaneNumber := 2 }

/-- A three-pane renderer state: the root horizontal group holds a
vertical group containing panes term-1 and term-3, followed by pane
term-2; the terminals were created in the order term-1, term-2,
term-3, and term-1 is active. -/
def threePaneState : AppState :=
  { layout := .group "root" .horizontal
      [.group "group-1" .vertical
        [.pane "node-1" "term-1" none (some 1), .pane "node-3" "term-3" none (some 3)],
       .pane "node-2" "term-2" none (some 2)],
    activePaneId := "term-1", terminals := ["term-1", "term-2", "term-3"],
    nextPaneNumber := 4 }

/-- A single-pane renderer state whose active pane id does not occur in
the layout tree. -/
def ghostActiveState : AppState :=
  { layout := .group "root" .horizontal [.pane "node-1" "term-1" none (some 1)],
    activePaneId := "term-ghost", terminals := ["term-1"], nextPaneNumber := 2 }

/-- A registry holding one live session s1 with pid 100, nothing
pending close, window open. -/
def regOne : Registry :=
  { ptys := [("s1", { pid := 100, cols := 80, rows := 30, cwd := "/home/u" })],
    closing := [], winAlive := true, nextPid := 101 }

/-- Like regOne but with s1 already marked in closingTerminals. -/
def regOneClosing : Registry :=
  { ptys := [("s1", { pid := 100, cols := 80, rows := 30, cwd := "/home/u" })],
    closing := ["s1"], winAlive := true, nextPid := 101 }

/-- An empty registry with the window open. -/
def regEmpty : Registry :=
  { ptys := [], closing := [], winAlive := true, nextPid := 100 }

/-! ## Lemmas about the layout tree operations -/

mutual

/-- Whatever removeByPaneId returns still contains at least one pane. -/
theorem paneCount_pos_of_remove (target : String) :
    ∀ t r, removeByPaneId target t = some r → 1 ≤ paneCount r := by
  intro t
  cases t with
  | pane i p c n =>
      intro r h
      by_cases hp : p = target
      · simp [removeByPaneId, hp] at h
      · simp [removeByPaneId, hp] at h
        subst h
        simp [paneCount]
  | group i d children =>
      intro r h
      rcases hrc : removeChildren target children with _ | ⟨c, cs⟩
      · simp [removeByPaneId, hrc] at h
      · rcases cs with _ | ⟨c2, cs2⟩
        · have hc : 1 ≤ paneCount c := by
            apply paneCount_pos_of_removeChildren target children
            rw [hrc]; exact List.mem_singleton.mpr rfl
          by_cases hroot : i ≠ "root"
          · simp [removeByPaneId, hrc, hroot] at h
            subst h; exact hc
          · simp [removeByPaneId, hrc, hroot] at h
            subst h
            simp [paneCount, paneCountList]
            omega
        · have hc : 1 ≤ paneCount c := by
            apply paneCount_pos_of_removeChildren target children
            rw [hrc]; exact List.mem_cons_self c _
          simp [removeByPaneId, hrc] at h
          subst h
          simp [paneCount, paneCountList]
          omega

/-- Every child surviving removeChildren contains at least one pane. -/
theorem paneCount_pos_of_removeChildren (target : String) :
    ∀ cs, ∀ r ∈ removeChildren target cs, 1 ≤ paneCount r := by
  intro cs
  cases cs with
  | nil =>
      intro r hr
      simp [removeChildren] at hr
  | cons c cs =>
      intro r hr
      rcases hc : removeByPaneId target c with _ | c2
      · rw [removeChildren, hc] at hr
        exact paneCount_pos_of_removeChildren target cs r hr
      · rw [removeChildren, hc] at hr
        rcases List.mem_cons.mp hr with h1 | h2
        · subst h1
          exact paneCount_pos_of_remove target c r hc
        · exact paneCount_pos_of_removeChildren target cs r h2

end

/-- Removing a pane and falling back to the previous tree when the
removal result is null (result or-else prevLayout) never empties the
tree. -/
theorem paneCount_pos_remove_getD (target : String) (t : LayoutNode)
    (h : 1 ≤ paneCount t) :
    1 ≤ paneCount ((removeByPaneId target t).getD t) := by
  cases hr : removeByPaneId target t with
  | none => simpa [hr] using h
  | some r => simpa [hr] using paneCount_pos_of_remove target t r hr

mutual

/-- If every pane of the tree has the target paneId, removal empties
the tree (returns none). -/
theorem remove_eq_none_of_all_target (target : String) :
    ∀ t, (∀ p ∈ paneIds t, p = target) → removeByPaneId target t = none := by
  intro t
  cases t with
  | pane i p c n =>
      intro hall
      have hp : p = target := hall p (by simp [paneIds])
      simp [removeByPaneId, hp]
  | group i d children =>
      intro hall
      have hcs : removeChildren target children = [] := by
        apply removeChildren_eq_nil_of_all_target target children
        intro p hp
        exact hall p (by simpa [paneIds] using hp)
      simp [removeByPaneId, hcs]

/-- List version of remove_eq_none_of_all_target. -/
theorem removeChildren_eq_nil_of_all_target (target : String) :
    ∀ cs, (∀ p ∈ paneIdsList cs, p = target) → removeChildren target cs = [] := by
  intro cs
  cases cs with
  | nil => intro _; simp [removeChildren]
  | cons c cs =>
      intro hall
      have hc : removeByPaneId target c = none := by
        apply remove_eq_none_of_all_target target c
        intro p hp
        exact hall p (by simp [paneIdsList, hp])
      rw [removeChildren, hc]
      apply removeChildren_eq_nil_of_all_target target cs
      intro p hp
      exact hall p (by simp [paneIdsList, hp])

end

/-- If the target pane occurs nowhere in a children list, splitChildren
reports no hit. -/
theorem splitChildren_eq_none_of_not_mem (target : String) (direction : Dir)
    (position : Pos) (newPane : LayoutNode) (newGroupId : String) :
    ∀ (parentDir : Dir) (cs : List LayoutNode),
      target ∉ paneIdsList cs →
      splitChildren target direction position newPane newGroupId parentDir cs = none := by
  intro parentDir cs
  cases cs with
  | nil => intro _; simp [splitChildren]
  | cons c cs =>
      intro hmem
      cases c with
      | pane i p cw n =>
          have hp : ¬ p = target := by
            intro hp
            exact hmem (by simp [paneIdsList, paneIds, hp])
          have hcs : splitChildren target direction position newPane newGroupId parentDir cs
              = none := by
            apply splitChildren_eq_none_of_not_mem
            intro hx
            exact hmem (by simp [paneIdsList, hx])
          rw [splitChildren.eq_def]
          simp [hp, hcs]
      | group gi gd gchildren =>
          have hg : splitChildren target direction position newPane newGroupId gd gchildren
              = none := by
            apply splitChildren_eq_none_of_not_mem
            intro hx
            exact hmem (by simp [paneIdsList, paneIds, hx])
          have hcs : splitChildren target direction position newPane newGroupId parentDir cs
              = none := by
            apply splitChildren_eq_none_of_not_mem
            intro hx
            exact hmem (by simp [paneIdsList, hx])
          simp [splitChildren, hg, hcs]

/-- If the target pane is not in the tree, splitLayout returns the tree
unchanged. -/
theorem splitLayout_eq_of_not_mem (target : String) (direction : Dir) (position : Pos)
    (newPane : LayoutNode) (newGroupId : String) (t : LayoutNode)
    (h : target ∉ paneIds t) :
    splitLayout target direction position newPane newGroupId t = t := by
  cases t with
  | pane i p c n => simp [splitLayout]
  | group i d children =>
      have hcs : splitChildren target direction position newPane newGroupId d children
          = none := by
        apply splitChildren_eq_none_of_not_mem
        intro hx
        exact h (by simpa [paneIds] using hx)
      simp [splitLayout, hcs]

/-! ## Claim C1 -/

/-- C1: the close operation never reduces the pane count to 0.  For
every renderer state whose layout tree contains at least one pane, both
the user-initiated closePane path and the unsolicited-exit removal path
leave at least one pane in the tree; closePane on a state with at most
one terminal is rejected with the whole state unchanged and no event
emitted; and the unsolicited-exit removal of the sole remaining pane
leaves the layout tree unchanged. -/
theorem closePane_never_empties_tree (s : AppState) (target id : String)
    (h1 : 1 ≤ paneCount s.layout) :
    1 ≤ paneCount (closePane s target).1.layout
  ∧ 1 ≤ paneCount (onTerminalExitRemove s id).layout
  ∧ (s.terminals.length ≤ 1 → closePane s target = (s, []))
  ∧ (paneIds s.layout = [id] → (onTerminalExitRemove s id).layout = s.layout) := by
  refine ⟨?_, ?_, ?_, ?_⟩
  · by_cases hlen : s.terminals.length ≤ 1
    · simpa [closePane, hlen] using h1
    · simpa [closePane, hlen] using paneCount_pos_remove_getD target s.layout h1
  · simpa [onTerminalExitRemove] using paneCount_pos_remove_getD id s.layout h1
  · intro hlen
    simp [closePane, hlen]
  · intro hsole
    have hnone : removeByPaneId id s.layout = none := by
      apply remove_eq_none_of_all_target
      intro p hp
      rw [hsole] at hp
      simpa using hp
    simp [onTerminalExitRemove, hnone]

/-- Witness for closePane_never_empties_tree at the concrete
single-pane state, closing its sole pane term-1 on both paths. -/
theorem closePane_never_empties_tree_witness :
    1 ≤ paneCount singlePaneState.layout
  ∧ (1 ≤ paneCount (closePane singlePaneState "term-1").1.layout
      ∧ 1 ≤ paneCount (onTerminalExitRemove singlePaneState "term-1").layout
      ∧ (singlePaneState.terminals.length ≤ 1 →
          closePane singlePaneState "term-1" = (singlePaneState, []))
      ∧ (paneIds singlePaneState.layout = ["term-1"] →
          (onTerminalExitRemove singlePaneState "term-1").layout
            = singlePaneState.layout)) :=
  ⟨by decide, closePane_never_empties_tree singlePaneState "term-1" "term-1" (by decide)⟩

/-! ## Claim C4 -/

/-- C4 (evidence of the code bug): evaluating closePane at the concrete
three-pane state with the active pane term-1 being closed.  The pane
node is removed (its vertical group collapses, hoisting term-3) and the
terminal-layout-change event driving the resize coordination is
dispatched, but the emitted event list is exactly that one event: there
is no closeTerminal call to the session registry anywhere (the pty of
term-1 is never told to terminate, although the TerminalPane cleanup
comment defers disposal to closePane), and the active pane is
reassigned to term-2 — the first remaining entry of the terminals list
in creation order — even though the tree sibling of the closed pane is
term-3. -/
theorem closePane_no_registry_close_eval :
    closePane threePaneState "term-1" =
      ({ layout := .group "root" .horizontal
            [.pane "node-3" "term-3" none (some 3), .pane "node-2" "term-2" none (some 2)],
         activePaneId := "term-2",
         terminals := ["term-2", "term-3"],
         nextPaneNumber := 4 }, [REvent.layoutChange])
  ∧ REvent.closeTerminalCall "term-1" ∉ (closePane threePaneState "term-1").2
  ∧ (closePane threePaneState "term-1").1.activePaneId ≠ "term-3" := by
  refine ⟨rfl, by decide, by decide⟩

/-! ## Claim C8 -/

/-- C8 counterexample: at a concrete state whose active (target) pane
id does not occur in the layout tree, splitPane leaves the layout
unchanged but still mutates the terminal list, the active-pane pointer
and the pane-number counter, refuting the claim that all four are left
unchanged by a failed split. -/
theorem splitPane_target_missing_counterexample :
    (splitPane ghostActiveState .horizontal .after "term-9" "node-9" "group-9" none).1.layout
      = ghostActiveState.layout
  ∧ (splitPane ghostActiveState .horizontal .after "term-9" "node-9" "group-9" none).1.terminals
      ≠ ghostActiveState.terminals
  ∧ (splitPane ghostActiveState .horizontal .after "term-9" "node-9" "group-9" none).1.activePaneId
      ≠ ghostActiveState.activePaneId
  ∧ (splitPane ghostActiveState .horizontal .after "term-9" "node-9" "group-9" none).1.nextPaneNumber
      ≠ ghostActiveState.nextPaneNumber := by
  refine ⟨?_, by decide, by decide, by decide⟩
  simp [splitPane, ghostActiveState, splitLayout, splitChildren]

/-- C8 (amended): when the target (active) pane id is not found in the
layout tree, splitPane leaves the layout tree unchanged — so the new
pane node is never mounted and no session is ever registered for it —
and returns no error; but the operation is not a complete no-op: the
new terminal id is appended to the terminal list, the active-pane
pointer moves to the new id, and the pane-number counter is
incremented. -/
theorem splitPane_target_missing_amended (s : AppState) (d : Dir) (pos : Pos)
    (newPaneId newNodeId newGroupId : String) (cwd : Option String)
    (h : s.activePaneId ∉ paneIds s.layout) :
    (splitPane s d pos newPaneId newNodeId newGroupId cwd).1.layout = s.layout
  ∧ (splitPane s d pos newPaneId newNodeId newGroupId cwd).1.terminals
      = s.terminals ++ [newPaneId]
  ∧ (splitPane s d pos newPaneId newNodeId newGroupId cwd).1.activePaneId = newPaneId
  ∧ (splitPane s d pos newPaneId newNodeId newGroupId cwd).1.nextPaneNumber
      = s.nextPaneNumber + 1
  ∧ (splitPane s d pos newPaneId newNodeId newGroupId cwd).2 = [REvent.layoutChange] := by
  refine ⟨?_, rfl, rfl, rfl, rfl⟩
  simpa [splitPane] using
    splitLayout_eq_of_not_mem s.activePaneId d pos
      (.pane newNodeId newPaneId cwd (some s.nextPaneNumber)) newGroupId s.layout h

/-- Witness for splitPane_target_missing_amended at the concrete state
with a ghost active pane id. -/
theorem splitPane_target_missing_amended_witness :
    ghostActiveState.activePaneId ∉ paneIds ghostActiveState.layout
  ∧ ((splitPane ghostActiveState .vertical .before "term-8" "node-8" "group-8" none).1.layout
        = ghostActiveState.layout
      ∧ (splitPane ghostActiveState .vertical .before "term-8" "node-8" "group-8" none).1.terminals
        = ghostActiveState.terminals ++ ["term-8"]
      ∧ (splitPane ghostActiveState .vertical .before "term-8" "node-8" "group-8" none).1.activePaneId
        = "term-8"
      ∧ (splitPane ghostActiveState .vertical .before "term-8" "node-8" "group-8" none).1.nextPaneNumber
        = ghostActiveState.nextPaneNumber + 1
      ∧ (splitPane ghostActiveState .vertical .before "term-8" "node-8" "group-8" none).2
        = [REvent.layoutChange]) :=
  ⟨by decide,
   splitPane_target_missing_amended ghostActiveState .vertical .before
     "term-8" "node-8" "group-8" none (by decide)⟩

/-! ## Lemmas about the session registry -/

/-- Looking for an id in a table from which that id was just filtered
out finds nothing. -/
theorem find?_filter_ne_eq_none (l : List (String × Pty)) (id : String) :
    (l.filter (fun e => e.1 ≠ id)).find? (fun e => e.1 = id) = none := by
  apply List.find?_eq_none.mpr
  intro x hx
  have hmem := List.mem_filter.mp hx
  simpa using hmem.2

/-- Registry.lookup after eraseId yields nothing for the erased id. -/
theorem lookup_after_eraseId (reg : Registry) (ptys2 : List (String × Pty))
    (closing2 : List String) (win2 : Bool) (next2 : Nat) (id : String)
    (h : ptys2 = reg.eraseId id) :
    Registry.lookup { ptys := ptys2, closing := closing2, winAlive := win2, nextPid := next2 } id
      = none := by
  subst h
  simp [Registry.lookup, Registry.eraseId, find?_filter_ne_eq_none]

/-! ## Claim C2 -/

/-- C2: consuming a pty exit.  If the id is marked in closingTerminals
(PendingClose) no unsolicited-exit notification is emitted; if it is
not marked, exactly one terminal-exit notification for that id is
emitted (the window being open); and in both cases the id is removed
from the live process table and from closingTerminals, so a subsequent
write for that id is a silent no-op. -/
theorem onPtyExit_suppression_and_cleanup (reg : Registry) (id : String) (data : String)
    (hwin : reg.winAlive = true) :
    (id ∈ reg.closing → (onPtyExit reg id).2 = [])
  ∧ (id ∉ reg.closing → (onPtyExit reg id).2 = [MEvent.sendExit id])
  ∧ (onPtyExit reg id).1.lookup id = none
  ∧ id ∉ (onPtyExit reg id).1.closing
  ∧ inputHandler (onPtyExit reg id).1 id data = ((onPtyExit reg id).1, []) := by
  have hlook : (onPtyExit reg id).1.lookup id = none := by
    apply lookup_after_eraseId
    rfl
  refine ⟨?_, ?_, hlook, ?_, ?_⟩
  · intro hmem
    simp [onPtyExit, hmem]
  · intro hmem
    simp [onPtyExit, hmem, hwin]
  · simp [onPtyExit, delClosing, List.mem_filter]
  · simp [inputHandler, hlook]

/-- Witness for onPtyExit_suppression_and_cleanup at the concrete
one-session registry: an unsolicited exit of s1. -/
theorem onPtyExit_suppression_and_cleanup_witness :
    regOne.winAlive = true
  ∧ ((("s1" : String) ∈ regOne.closing → (onPtyExit regOne "s1").2 = [])
      ∧ (("s1" : String) ∉ regOne.closing →
          (onPtyExit regOne "s1").2 = [MEvent.sendExit "s1"])
      ∧ (onPtyExit regOne "s1").1.lookup "s1" = none
      ∧ ("s1" : String) ∉ (onPtyExit regOne "s1").1.closing
      ∧ inputHandler (onPtyExit regOne "s1").1 "s1" "ls"
          = ((onPtyExit regOne "s1").1, [])) :=
  ⟨rfl, onPtyExit_suppression_and_cleanup regOne "s1" "ls" rfl⟩

/-! ## Claim C3 -/

/-- C3: createPty is idempotent.  If an id already has a live session,
createPty returns the existing session, changes nothing and spawns no
process; and unconditionally, a second createPty with the same id right
after a first one returns the state and session produced by the first
call with no further spawn, so calling create twice equals calling it
once. -/
theorem createPty_idempotent :
    (∀ (reg : Registry) (id : String) (cwd : Option String) (home : String) (p : Pty),
        reg.lookup id = some p → createPty reg id cwd home = (reg, p, []))
  ∧ (∀ (reg : Registry) (id : String) (cwd cwd2 : Option String) (home home2 : String),
        createPty (createPty reg id cwd home).1 id cwd2 home2 =
          ((createPty reg id cwd home).1, (createPty reg id cwd home).2.1, [])) := by
  constructor
  · intro reg id cwd home p h
    simp [createPty, h]
  · intro reg id cwd cwd2 home home2
    cases hl : reg.lookup id with
    | some p =>
        simp [createPty, hl]
    | none =>
        have hfind : reg.ptys.find? (fun e => e.1 = id) = none := by
          simpa [Registry.lookup] using hl
        have hlook2 : Registry.lookup (createPty reg id cwd home).1 id
            = some { pid := reg.nextPid, cols := 80, rows := 30, cwd := cwd.getD home } := by
          simp [createPty, hl, Registry.lookup, List.find?_append, hfind]
        simp [createPty, hl] at hlook2
        simp [createPty, hl, hlook2]

/-- Witness for createPty_idempotent: the live-session branch applied
to the concrete one-session registry, and the double-create branch
applied to the empty registry. -/
theorem createPty_idempotent_witness :
    regOne.lookup "s1" = some { pid := 100, cols := 80, rows := 30, cwd := "/home/u" }
  ∧ createPty regOne "s1" none "/root"
      = (regOne, { pid := 100, cols := 80, rows := 30, cwd := "/home/u" }, [])
  ∧ createPty (createPty regEmpty "s1" none "/root").1 "s1" none "/root"
      = ((createPty regEmpty "s1" none "/root").1,
         (createPty regEmpty "s1" none "/root").2.1, []) :=
  ⟨rfl,
   createPty_idempotent.1 regOne "s1" none "/root"
     { pid := 100, cols := 80, rows := 30, cwd := "/home/u" } rfl,
   createPty_idempotent.2 regEmpty "s1" none none "/root" "/root"⟩

/-! ## Claim C5 -/

/-- C5: for a live id, the terminal-close handler marks the id in
closingTerminals (PendingClose), emits the kill request for its pty,
and synchronously removes the id from the live table, so a write or a
resize issued afterwards is a no-op with no event emitted, before any
OS confirmation of the termination. -/
theorem closeHandler_sync_removal (reg : Registry) (id : String) (p : Pty)
    (data : String) (cols rows : Int) (osOk : Bool)
    (h : reg.lookup id = some p) :
    id ∈ (closeHandler reg id).1.closing
  ∧ (closeHandler reg id).2 = [MEvent.kill p.pid]
  ∧ (closeHandler reg id).1.lookup id = none
  ∧ inputHandler (closeHandler reg id).1 id data = ((closeHandler reg id).1, [])
  ∧ resizeHandler osOk (closeHandler reg id).1 id cols rows
      = ((closeHandler reg id).1, []) := by
  have hptys : (closeHandler reg id).1.ptys = reg.eraseId id := by
    simp [closeHandler, h]
  have hlook : (closeHandler reg id).1.lookup id = none := by
    simp [Registry.lookup, hptys, Registry.eraseId, find?_filter_ne_eq_none]
  refine ⟨?_, ?_, hlook, ?_, ?_⟩
  · by_cases hm : id ∈ reg.closing <;> simp [closeHandler, h, addClosing, hm]
  · simp [closeHandler, h]
  · simp [inputHandler, hlook]
  · simp [resizeHandler, hlook]

/-- Witness for closeHandler_sync_removal: closing the live session s1
of the concrete one-session registry. -/
theorem closeHandler_sync_removal_witness :
    regOne.lookup "s1" = some { pid := 100, cols := 80, rows := 30, cwd := "/home/u" }
  ∧ (("s1" : String) ∈ (closeHandler regOne "s1").1.closing
      ∧ (closeHandler regOne "s1").2 = [MEvent.kill 100]
      ∧ (closeHandler regOne "s1").1.lookup "s1" = none
      ∧ inputHandler (closeHandler regOne "s1").1 "s1" "ls"
          = ((closeHandler regOne "s1").1, [])
      ∧ resizeHandler true (closeHandler regOne "s1").1 "s1" 100 40
          = ((closeHandler regOne "s1").1, [])) :=
  ⟨rfl, closeHandler_sync_removal regOne "s1"
     { pid := 100, cols := 80, rows := 30, cwd := "/home/u" } "ls" 100 40 true rfl⟩

/-! ## Claim C6 -/

/-- C6: the terminal-resize handler with a non-positive dimension is a
complete no-op — it does not attempt the OS-level pty resize and emits
nothing (in particular it cannot throw, the guard rejects the call
before any OS interaction); and for a live id with positive dimensions
whose OS-level resize fails, the failure is logged via console.error,
the registry is unchanged, and no error propagates out of the
handler. -/
theorem resizeHandler_guard_and_logging (reg : Registry) (id : String)
    (cols rows : Int) (osOk : Bool) (p : Pty) :
    ((cols ≤ 0 ∨ rows ≤ 0) → resizeHandler osOk reg id cols rows = (reg, []))
  ∧ (reg.lookup id = some p → 0 < cols → 0 < rows →
        resizeHandler false reg id cols rows
          = (reg, [MEvent.osResize p.pid cols rows, MEvent.logResizeError id])) := by
  constructor
  · intro hbad
    cases hl : reg.lookup id with
    | none => simp [resizeHandler, hl]
    | some q =>
        have hng : ¬ (0 < cols ∧ 0 < rows) := by omega
        simp [resizeHandler, hl, hng]
  · intro h hc hr
    simp [resizeHandler, h, hc, hr, ptyResize]

/-- Witness for resizeHandler_guard_and_logging: a zero-column resize
of the live session s1, and a failing OS resize at 100 by 40. -/
theorem resizeHandler_guard_and_logging_witness :
    (((0 : Int) ≤ 0 ∨ (40 : Int) ≤ 0) →
        resizeHandler true regOne "s1" 0 40 = (regOne, []))
  ∧ (regOne.lookup "s1" = some { pid := 100, cols := 80, rows := 30, cwd := "/home/u" } →
        (0 : Int) < 100 → (0 : Int) < 40 →
        resizeHandler false regOne "s1" 100 40
          = (regOne, [MEvent.osResize 100 100 40, MEvent.logResizeError "s1"]))
  ∧ resizeHandler true regOne "s1" 0 40 = (regOne, [])
  ∧ resizeHandler false regOne "s1" 100 40
      = (regOne, [MEvent.osResize 100 100 40, MEvent.logResizeError "s1"]) := by
  have h := resizeHandler_guard_and_logging regOne "s1" 0 40 true
    { pid := 100, cols := 80, rows := 30, cwd := "/home/u" }
  have h2 := resizeHandler_guard_and_logging regOne "s1" 100 40 false
    { pid := 100, cols := 80, rows := 30, cwd := "/home/u" }
  exact ⟨h.1, h2.2, h.1 (Or.inl (by decide)), h2.2 rfl (by decide) (by decide)⟩

/-! ## Claim C9 -/

/-- C9: getCwd falls back to HOME (with the JavaScript or-else of the
root path) whenever the platform probe throws, on every platform; it
returns HOME outright on any platform other than darwin and linux; and
the terminal-get-cwd handler returns HOME when the id has no live
session. -/
theorem getCwd_home_fallback (reg : Registry) (id : String)
    (regexCapture : String → Option String) (envHome : Option String)
    (probe : Except Unit String) :
    (∀ platform : Platform,
        getCwd platform (Except.error ()) regexCapture envHome = homeOr envHome)
  ∧ (∀ platform : Platform, platform = .win32 ∨ platform = .other →
        getCwd platform probe regexCapture envHome = homeOr envHome)
  ∧ (reg.lookup id = none → ∀ platform : Platform,
        getCwdHandler reg id platform probe regexCapture envHome = homeOr envHome) := by
  refine ⟨?_, ?_, ?_⟩
  · intro platform
    cases platform <;> simp [getCwd]
  · rintro platform (h | h) <;> subst h <;> simp [getCwd]
  · intro h platform
    simp [getCwdHandler, h]

/-- Witness for getCwd_home_fallback: a throwing probe on linux with
HOME set, and a cwd request for an id absent from the empty registry. -/
theorem getCwd_home_fallback_witness :
    getCwd .linux (Except.error ()) (fun _ => none) (some "/home/u") = homeOr (some "/home/u")
  ∧ (Platform.win32 = Platform.win32 ∨ Platform.win32 = Platform.other)
  ∧ getCwd .win32 (Except.ok "/tmp") (fun _ => none) (some "/home/u")
      = homeOr (some "/home/u")
  ∧ regEmpty.lookup "s1" = none
  ∧ getCwdHandler regEmpty "s1" .linux (Except.ok "/tmp") (fun _ => none) (some "/home/u")
      = homeOr (some "/home/u") := by
  have h := getCwd_home_fallback regEmpty "s1" (fun _ => none) (some "/home/u")
    (Except.ok "/tmp")
  exact ⟨h.1 .linux, Or.inl rfl, h.2.1 .win32 (Or.inl rfl), rfl, h.2.2 rfl .linux⟩

/-! ## Claim C10 -/

/-- C10: the closed handler of the main window kills every live pty in
the registry, clears the live process table, and marks the window gone,
so no session outlives the window. -/
theorem onWindowClosed_kills_all (reg : Registry) :
    (onWindowClosed reg).1.ptys = []
  ∧ (onWindowClosed reg).1.winAlive = false
  ∧ (∀ e ∈ reg.ptys, MEvent.kill e.2.pid ∈ (onWindowClosed reg).2) := by
  refine ⟨rfl, rfl, ?_⟩
  intro e he
  simpa [onWindowClosed] using List.mem_map_of_mem (fun e => MEvent.kill e.2.pid) he

/-- Witness for onWindowClosed_kills_all at the concrete one-session
registry: the pty of s1 (pid 100) is killed and the table emptied. -/
theorem onWindowClosed_kills_all_witness :
    (("s1", ({ pid := 100, cols := 80, rows := 30, cwd := "/home/u" } : Pty)) ∈ regOne.ptys)
  ∧ (onWindowClosed regOne).1.ptys = []
  ∧ (onWindowClosed regOne).1.winAlive = false
  ∧ MEvent.kill 100 ∈ (onWindowClosed regOne).2 := by
  have h := onWindowClosed_kills_all regOne
  exact ⟨by decide, h.1, h.2.1,
    h.2.2 ("s1", { pid := 100, cols := 80, rows := 30, cwd := "/home/u" }) (by decide)⟩

/-! ## Lemmas about the resize coordination -/

/-- Folding n debounce triggers from any state: the most recently
installed timer is the only pending one (each trigger clears its
predecessor) and no call is issued. -/
theorem foldl_triggers (measured : Nat × Nat) :
    ∀ (n : Nat) (s : DebounceState),
      (List.replicate n DEvent.trigger).foldl (dStep measured) s =
        if n = 0 then s
        else { pendingTimer := some (s.nextTimerId + n - 1),
               nextTimerId := s.nextTimerId + n,
               calls := s.calls } := by
  intro n
  induction n with
  | zero => intro s; simp
  | succ k ih =>
      intro s
      rw [List.replicate_succ, List.foldl_cons, ih]
      by_cases hk : k = 0
      · subst hk
        simp [dStep]
      · simp [dStep, hk, DebounceState.mk.injEq]
        omega

/-- A burst of n ≥ 1 triggers followed by the settled firing of the
last installed timer yields exactly the one call carrying the measured
grid when it is positive, and no call at all when a dimension is
zero. -/
theorem dRun_burst (measured : Nat × Nat) (n : Nat) (hn : 1 ≤ n) :
    (dRun measured (List.replicate n DEvent.trigger ++ [DEvent.timerFire (n - 1)])).calls
      = if 0 < measured.1 ∧ 0 < measured.2 then [measured] else [] := by
  unfold dRun
  rw [List.foldl_append, foldl_triggers]
  have hn0 : ¬ n = 0 := by omega
  simp [hn0, dInit, dStep]

/-- Every resize call ever issued by the debounce machine has positive
columns and rows, whatever the event schedule and the measurement. -/
theorem dRun_calls_positive_aux (m : Nat × Nat) :
    ∀ (events : List DEvent) (s : DebounceState),
      (∀ c ∈ s.calls, 0 < c.1 ∧ 0 < c.2) →
      ∀ c ∈ (events.foldl (dStep m) s).calls, 0 < c.1 ∧ 0 < c.2 := by
  intro events
  induction events with
  | nil => intro s hs; simpa using hs
  | cons e es ih =>
      intro s hs
      apply ih
      cases e with
      | trigger => simpa [dStep] using hs
      | timerFire k =>
          by_cases hp : s.pendingTimer = some k
          · by_cases hm : 0 < m.1 ∧ 0 < m.2
            · intro c hc
              simp [dStep, hp, hm] at hc
              rcases hc with hc | hc
              · exact hs c hc
              · subst hc
                exact hm
            · intro c hc
              simp [dStep, hp, hm] at hc
              exact hs c hc
          · simpa [dStep, hp] using hs

/-- attemptResize never issues a zero-dimension resize call. -/
theorem attemptResize_calls_positive (measure : Nat → Nat × Nat) (attempt : Nat) :
    ∀ c ∈ attemptResize measure attempt, 0 < c.1 ∧ 0 < c.2 := by
  intro c hc
  unfold attemptResize at hc
  by_cases h : 0 < (measure attempt).1 ∧ 0 < (measure attempt).2
  · rw [if_pos h, List.mem_singleton] at hc
    subst hc
    exact h
  · rw [if_neg h] at hc
    by_cases h5 : attempt < 5
    · rw [if_pos h5] at hc
      exact attemptResize_calls_positive measure (attempt + 1) c hc
    · rw [if_neg h5] at hc
      simp at hc
termination_by 6 - attempt
decreasing_by omega

/-- attemptResize issues at most one resize call before giving up
silently. -/
theorem attemptResize_length_le (measure : Nat → Nat × Nat) (attempt : Nat) :
    (attemptResize measure attempt).length ≤ 1 := by
  unfold attemptResize
  by_cases h : 0 < (measure attempt).1 ∧ 0 < (measure attempt).2
  · simp [h]
  · by_cases h5 : attempt < 5
    · simpa [h, h5] using attemptResize_length_le measure (attempt + 1)
    · simp [h, h5]
termination_by 6 - attempt
decreasing_by omega

/-- attemptResize started at an attempt number at most 5 consults only
the measurements of attempts up to 5: the retry is bounded. -/
theorem attemptResize_bounded (m1 m2 : Nat → Nat × Nat) (attempt : Nat)
    (h5 : attempt ≤ 5) (hagree : ∀ k, attempt ≤ k → k ≤ 5 → m1 k = m2 k) :
    attemptResize m1 attempt = attemptResize m2 attempt := by
  have hma : m1 attempt = m2 attempt := hagree attempt (Nat.le_refl attempt) h5
  unfold attemptResize
  rw [← hma]
  by_cases h : 0 < (m1 attempt).1 ∧ 0 < (m1 attempt).2
  · rw [if_pos h, if_pos h]
  · rw [if_neg h, if_neg h]
    by_cases hlt : attempt < 5
    · rw [if_pos hlt, if_pos hlt]
      exact attemptResize_bounded m1 m2 (attempt + 1) (by omega)
        (fun k hk hk5 => hagree k (by omega) hk5)
    · rw [if_neg hlt, if_neg hlt]
termination_by 6 - attempt
decreasing_by omega

/-! ## Claim C7 -/

/-- C7: resize coordination.  A burst of n ≥ 1 geometry-change triggers
followed by the settled firing of the debounce timer yields exactly one
resize call carrying the (positive) measured grid; no schedule of
triggers and timer firings ever produces a zero-dimension resize call;
and the initial-measurement retry loop attemptResize issues at most one
call, never a zero-dimension one, and consults only the boundedly many
measurements of attempts 0 through 5 before giving up silently. -/
theorem resize_debounce_and_bounded_retry (n : Nat) (hn : 1 ≤ n)
    (m : Nat × Nat) (hm : 0 < m.1 ∧ 0 < m.2) (m0 : Nat × Nat)
    (events : List DEvent) (am am2 : Nat → Nat × Nat)
    (hagree : ∀ k, k ≤ 5 → am k = am2 k) :
    (dRun m (List.replicate n DEvent.trigger ++ [DEvent.timerFire (n - 1)])).calls = [m]
  ∧ (∀ c ∈ (dRun m0 events).calls, 0 < c.1 ∧ 0 < c.2)
  ∧ (∀ c ∈ attemptResize am 0, 0 < c.1 ∧ 0 < c.2)
  ∧ (attemptResize am 0).length ≤ 1
  ∧ attemptResize am 0 = attemptResize am2 0 := by
  refine ⟨?_, ?_, ?_, ?_, ?_⟩
  · rw [dRun_burst m n hn]
    simp [hm]
  · exact fun c hc => dRun_calls_positive_aux m0 events dInit (by simp [dInit]) c hc
  · exact attemptResize_calls_positive am 0
  · exact attemptResize_length_le am 0
  · exact attemptResize_bounded am am2 0 (by omega) (fun k _ hk5 => hagree k hk5)

/-- Witness for resize_debounce_and_bounded_retry: a burst of two
triggers settling at the measured grid 80 by 24, a schedule whose
measurement is zero, and a retry measurement that only becomes positive
at the third attempt. -/
theorem resize_debounce_and_bounded_retry_witness :
    (1 ≤ 2 ∧ 0 < (80, 24).1 ∧ 0 < (80, 24).2)
  ∧ ((dRun (80, 24) (List.replicate 2 DEvent.trigger ++ [DEvent.timerFire (2 - 1)])).calls
        = [(80, 24)]
      ∧ (∀ c ∈ (dRun (0, 0) [DEvent.trigger, DEvent.timerFire 0]).calls,
            0 < c.1 ∧ 0 < c.2)
      ∧ (∀ c ∈ attemptResize (fun k => if k < 2 then (0, 0) else (120, 40)) 0,
            0 < c.1 ∧ 0 < c.2)
      ∧ (attemptResize (fun k => if k < 2 then (0, 0) else (120, 40)) 0).length ≤ 1
      ∧ attemptResize (fun k => if k < 2 then (0, 0) else (120, 40)) 0
          = attemptResize (fun k => if k < 2 then (0, 0) else (120, 40)) 0) :=
  ⟨⟨by decide, by decide, by decide⟩,
   resize_debounce_and_bounded_retry 2 (by decide) (80, 24) (by decide) (0, 0)
     [DEvent.trigger, DEvent.timerFire 0]
     (fun k => if k < 2 then (0, 0) else (120, 40))
     (fun k => if k < 2 then (0, 0) else (120, 40))
     (fun _ _ => rfl)⟩

end TermAInal
